import Mathlib

/-!
Verification of the dd2d_Matryoshka dislocation-dynamics kernel.

The repository ships the class declarations (dislocation.h, polycrystal.h)
and two implementation files (tools.cpp, simulateSingleSlipPlane.cpp).
Pure numeric code is embedded over the exact fields ℚ and ℝ: the parsing
and list utilities (tools.cpp, simulateSingleSlipPlane.cpp) are embedded
as executable functions over ℚ, while the elastic stress and force
formulas, whose member-function bodies are not part of the shipped
sources, are modelled from the specification over ℝ.
-/

/-- Three real components with arithmetic, dot, cross and squared
magnitude; the scalar type is a parameter so that the same record serves
the exact rational embedding of the tools and the real-valued elastic
formulas. Mirrors the Vector3d class used throughout the sources. -/
structure Vector3d (α : Type) where
  x : α
  y : α
  z : α
deriving DecidableEq, Repr

/-- Componentwise addition of two Vector3d values. -/
def Vector3d.add {α : Type} [Add α] (a b : Vector3d α) : Vector3d α :=
  ⟨a.x + b.x, a.y + b.y, a.z + b.z⟩

/-- Componentwise subtraction of two Vector3d values. -/
def Vector3d.sub {α : Type} [Sub α] (a b : Vector3d α) : Vector3d α :=
  ⟨a.x - b.x, a.y - b.y, a.z - b.z⟩

instance {α : Type} [Add α] : Add (Vector3d α) := ⟨Vector3d.add⟩

instance {α : Type} [Sub α] : Sub (Vector3d α) := ⟨Vector3d.sub⟩

/-- The zero vector. -/
def Vector3d.zero {α : Type} [Zero α] : Vector3d α := ⟨0, 0, 0⟩

/-- Cross product of two Vector3d values, as used by the
Peach-Koehler force formula F = (sigma . b) x xi. -/
def Vector3d.cross {α : Type} [Mul α] [Sub α] (a b : Vector3d α) : Vector3d α :=
  ⟨a.y * b.z - a.z * b.y, a.z * b.x - a.x * b.z, a.x * b.y - a.y * b.x⟩

/-- Squared magnitude of a Vector3d. The sources compare
magnitude() == 0.0; over an exact linearly ordered field the square
root of the sum of squares vanishes exactly when the sum of squares
does, so the embedding tests the squared magnitude against zero. -/
def Vector3d.magnitudeSq {α : Type} [Mul α] [Add α] (a : Vector3d α) : α :=
  a.x * a.x + a.y * a.y + a.z * a.z

/-- A 3x3 matrix with explicit entries, mirroring Matrix33 of the data
model (spec section 3). -/
structure Matrix33 (α : Type) where
  a11 : α
  a12 : α
  a13 : α
  a21 : α
  a22 : α
  a23 : α
  a31 : α
  a32 : α
  a33 : α
deriving DecidableEq, Repr

/-- Matrix-matrix product for Matrix33. -/
def Matrix33.mul {α : Type} [Mul α] [Add α] (A B : Matrix33 α) : Matrix33 α :=
  ⟨A.a11 * B.a11 + A.a12 * B.a21 + A.a13 * B.a31,
   A.a11 * B.a12 + A.a12 * B.a22 + A.a13 * B.a32,
   A.a11 * B.a13 + A.a12 * B.a23 + A.a13 * B.a33,
   A.a21 * B.a11 + A.a22 * B.a21 + A.a23 * B.a31,
   A.a21 * B.a12 + A.a22 * B.a22 + A.a23 * B.a32,
   A.a21 * B.a13 + A.a22 * B.a23 + A.a23 * B.a33,
   A.a31 * B.a11 + A.a32 * B.a21 + A.a33 * B.a31,
   A.a31 * B.a12 + A.a32 * B.a22 + A.a33 * B.a32,
   A.a31 * B.a13 + A.a32 * B.a23 + A.a33 * B.a33⟩

/-- Matrix-vector product for Matrix33. -/
def Matrix33.mulVec {α : Type} [Mul α] [Add α] (A : Matrix33 α) (v : Vector3d α) :
    Vector3d α :=
  ⟨A.a11 * v.x + A.a12 * v.y + A.a13 * v.z,
   A.a21 * v.x + A.a22 * v.y + A.a23 * v.z,
   A.a31 * v.x + A.a32 * v.y + A.a33 * v.z⟩

/-- Transpose of a Matrix33. -/
def Matrix33.transpose {α : Type} (A : Matrix33 α) : Matrix33 α :=
  ⟨A.a11, A.a21, A.a31, A.a12, A.a22, A.a32, A.a13, A.a23, A.a33⟩

/-- A symmetric stress tensor stored as its six independent components
(spec section 3: Stress is a symmetric 3x3 tensor, equivalently the six
independent components). -/
structure Stress (α : Type) where
  xx : α
  yy : α
  zz : α
  xy : α
  xz : α
  yz : α
deriving DecidableEq, Repr

/-- The zero stress tensor. -/
def Stress.zero {α : Type} [Zero α] : Stress α := ⟨0, 0, 0, 0, 0, 0⟩

/-- The full 3x3 matrix of a symmetric stress tensor. -/
def Stress.toMatrix {α : Type} (s : Stress α) : Matrix33 α :=
  ⟨s.xx, s.xy, s.xz, s.xy, s.yy, s.yz, s.xz, s.yz, s.zz⟩

/-- Reads the six independent components off a 3x3 matrix (used for the
result of a similarity transform of a symmetric tensor by a rotation,
which is again symmetric). -/
def Stress.ofMatrix {α : Type} (A : Matrix33 α) : Stress α :=
  ⟨A.a11, A.a22, A.a33, A.a12, A.a13, A.a23⟩

/-- Rotation of a stress tensor from the global frame into a local frame
whose rotation matrix R maps global to local: sigma_local = R sigma Rt
(spec section 4.1, with the dislocation rotation-matrix convention of
dislocation.h lines 49-52 and 215). -/
def Stress.rotateToLocal {α : Type} [Mul α] [Add α] (R : Matrix33 α) (s : Stress α) :
    Stress α :=
  Stress.ofMatrix ((R.mul s.toMatrix).mul R.transpose)

/-- Rotation of a stress tensor from a local frame up to the global
frame, the inverse direction: sigma_global = Rt sigma R for the same
global-to-local matrix R. -/
def Stress.rotateToGlobal {α : Type} [Mul α] [Add α] (R : Matrix33 α) (s : Stress α) :
    Stress α :=
  Stress.ofMatrix ((R.transpose.mul s.toMatrix).mul R)

/-- The Dislocation record of dislocation.h lines 23-89: Burgers vector
bvec, line vector lvec, mobility flag, Burgers magnitude bmag, the
global-to-local rotation matrix, the position inherited from Defect, and
the per-iteration histories of stress, force and velocity. -/
structure Dislocation (α : Type) where
  pos : Vector3d α
  bvec : Vector3d α
  lvec : Vector3d α
  mobile : Bool
  bmag : α
  rotationMatrix : Matrix33 α
  totalStresses : List (Stress α)
  forces : List (Vector3d α)
  velocities : List (Vector3d α)

/-- Modelled from the spec: the body of Dislocation::stressFieldLocal is
not among the shipped sources (dislocation.h lines 230-238 declare it
only), so the definition follows spec section 4.2. With K =
mu |b| / (2 pi (1 - nu)) and r2 = x^2 + y^2, the nonzero local
components are sigma_xx = -K y (3 x^2 + y^2)/r^4, sigma_yy =
K y (x^2 - y^2)/r^4, sigma_xy = K x (x^2 - y^2)/r^4 and sigma_zz =
nu (sigma_xx + sigma_yy); at r = 0 the zero tensor is returned. -/
noncomputable def Dislocation.stressFieldLocal (d : Dislocation ℝ) (p : Vector3d ℝ)
    (mu nu : ℝ) : Stress ℝ :=
  let K := mu * d.bmag / (2 * Real.pi * (1 - nu))
  let r2 := p.x ^ 2 + p.y ^ 2
  if r2 = 0 then Stress.zero
  else
    let sxx := -K * p.y * (3 * p.x ^ 2 + p.y ^ 2) / r2 ^ 2
    let syy := K * p.y * (p.x ^ 2 - p.y ^ 2) / r2 ^ 2
    let sxy := K * p.x * (p.x ^ 2 - p.y ^ 2) / r2 ^ 2
    { xx := sxx, yy := syy, zz := nu * (sxx + syy), xy := sxy, xz := 0, yz := 0 }

/-- Modelled from the spec: the body of Dislocation::stressField is not
among the shipped sources (dislocation.h lines 219-228 declare it only).
Spec section 4.2: the global-frame stress is the local tensor, evaluated
at the field point expressed in the local frame with the dislocation as
origin, rotated up through the dislocation rotation matrix. -/
noncomputable def Dislocation.stressField (d : Dislocation ℝ) (p : Vector3d ℝ)
    (mu nu : ℝ) : Stress ℝ :=
  Stress.rotateToGlobal d.rotationMatrix
    (d.stressFieldLocal (d.rotationMatrix.mulVec (p - d.pos)) mu nu)

/-- Modelled from the spec: the body of Dislocation::forcePeachKoehler is
not among the shipped sources (dislocation.h lines 240-248 declare it
only). Spec section 4.3: the resolved shear stress is the xy component of
sigma rotated into the dislocation local frame; when its absolute value
is strictly below tau_crss the force is zero, otherwise F =
(sigma . b) x xi in the global frame. -/
def Dislocation.forcePeachKoehler {α : Type} [LinearOrderedField α]
    (d : Dislocation α) (sigma : Stress α) (tau_crss : α) : Vector3d α :=
  if |(Stress.rotateToLocal d.rotationMatrix sigma).xy| < tau_crss then
    Vector3d.zero
  else
    Vector3d.cross (sigma.toMatrix.mulVec d.bvec) d.lvec

/-- Modelled from the spec: the body of Dislocation::idealTimeIncrement
is not among the shipped sources (dislocation.h lines 250-258 declare it
only). Spec section 4.4 gives the per-pair constraint for signed
positions x1 < x2 with velocities v1, v2 along the slip direction: with
closing speed vClose = v1 - v2, a non-positive vClose imposes no
constraint (none), otherwise the allowed increment is
max 0 ((x2 - x1 - minDistance) / vClose). -/
def idealTimeIncrement (minDistance x1 x2 v1 v2 : ℚ) : Option ℚ :=
  let vClose := v1 - v2
  if vClose ≤ 0 then none
  else some (max 0 ((x2 - x1 - minDistance) / vClose))

/-- Modelled from the spec: the body of
Dislocation::getTotalStressAtIteration is not among the shipped sources
(dislocation.h lines 188-194 declare it, and its documentation states
that an invalid iteration index yields a zero stress tensor, a valid one
the recorded entry). -/
def Dislocation.getTotalStressAtIteration {α : Type} [Zero α] (d : Dislocation α)
    (i : Int) : Stress α :=
  if 0 ≤ i ∧ i < d.totalStresses.length then
    d.totalStresses.getD i.toNat Stress.zero
  else Stress.zero

/-- Modelled from the spec: the body of
Dislocation::getTotalForceAtIteration is not among the shipped sources
(dislocation.h lines 196-202; its documentation states that an invalid
iteration index yields a zero force vector, a valid one the recorded
entry). -/
def Dislocation.getTotalForceAtIteration {α : Type} [Zero α] (d : Dislocation α)
    (i : Int) : Vector3d α :=
  if 0 ≤ i ∧ i < d.forces.length then
    d.forces.getD i.toNat Vector3d.zero
  else Vector3d.zero

/-- Modelled from the spec: the body of Dislocation::getVelocityAtIteration
is not among the shipped sources (dislocation.h lines 204-210; its
documentation states that an invalid iteration index yields a zero
velocity vector, a valid one the recorded entry). -/
def Dislocation.getVelocityAtIteration {α : Type} [Zero α] (d : Dislocation α)
    (i : Int) : Vector3d α :=
  if 0 ≤ i ∧ i < d.velocities.length then
    d.velocities.getD i.toNat Vector3d.zero
  else Vector3d.zero

/-- The truncating string-to-integer conversion atoi, acting on the
numeric value carried by a token: truncation toward zero. -/
def atoiQ (q : ℚ) : Int := if 0 ≤ q then ⌊q⌋ else ⌈q⌉

/-- The attributes parsed into a Dislocation by readDislocationFromLine
(simulateSingleSlipPlane.cpp lines 140-177): position, Burgers vector,
line vector, Burgers magnitude and mobility, matching the constructor
Dislocation (burgers, line, position, bm, m) of dislocation.h. -/
structure DislocationQ where
  pos : Vector3d ℚ
  bvec : Vector3d ℚ
  lvec : Vector3d ℚ
  bmag : ℚ
  mobile : Bool
deriving DecidableEq, Repr

/-- The attributes parsed by readDislocationSourceFromLine
(simulateSingleSlipPlane.cpp lines 184-226): position, Burgers vector,
line vector, Burgers magnitude, critical resolved shear stress tau and
the iteration count nIter, matching the DislocationSource variant of the
data model. -/
structure DislocationSourceQ where
  pos : Vector3d ℚ
  bvec : Vector3d ℚ
  lvec : Vector3d ℚ
  bmag : ℚ
  tau : ℚ
  nIter : Int
deriving DecidableEq, Repr

/-- readVectorFromLine of simulateSingleSlipPlane.cpp lines 119-133:
reads three whitespace-separated numeric tokens into a Vector3d. Lines
are embedded after tokenisation and numeric conversion, as lists of
rational token values; a well-formed vector line has at least the three
tokens the loop extracts. -/
def readVectorFromLine : List ℚ → Option (Vector3d ℚ)
  | x :: y :: z :: _ => some ⟨x, y, z⟩
  | _ => none

/-- readDislocationFromLine of simulateSingleSlipPlane.cpp lines
140-177: reads, in order, three position tokens, three Burgers-vector
tokens, three line-vector tokens, the Burgers magnitude, and the
mobility flag obtained as (bool) atoi(token), then builds
Dislocation (bvec, lvec, pos, bmag, mob). The undeclared identifier mon
in the source return statement is read as the evidently intended mob;
that slip is the subject of the associated finding. -/
def readDislocationFromLine : List ℚ → Option DislocationQ
  | p1 :: p2 :: p3 :: b1 :: b2 :: b3 :: l1 :: l2 :: l3 :: bm :: mob :: _ =>
      some { pos := ⟨p1, p2, p3⟩, bvec := ⟨b1, b2, b3⟩, lvec := ⟨l1, l2, l3⟩,
             bmag := bm, mobile := decide (atoiQ mob ≠ 0) }
  | _ => none

/-- readDislocationSourceFromLine of simulateSingleSlipPlane.cpp lines
184-226: reads, in order, three position tokens, three Burgers-vector
tokens, three line-vector tokens, the Burgers magnitude, the critical
stress tau, and the iteration count nIter via atoi. No validation of tau
or nIter is performed. The source return statement constructs a
six-argument Dislocation although the declared return type is
DislocationSource; the record built here carries the parsed attributes
as a source record, which is the evident intent and the subject of the
associated finding. -/
def readDislocationSourceFromLine : List ℚ → Option DislocationSourceQ
  | p1 :: p2 :: p3 :: b1 :: b2 :: b3 :: l1 :: l2 :: l3 :: bm :: tau :: nc :: _ =>
      some { pos := ⟨p1, p2, p3⟩, bvec := ⟨b1, b2, b3⟩, lvec := ⟨l1, l2, l3⟩,
             bmag := bm, tau := tau, nIter := atoiQ nc }
  | _ => none

/-- The SlipPlane state touched by readSlipPlane: extremities, normal,
origin position, and the lists receiving insertDislocation and
insertDislocationSource. -/
structure SlipPlaneQ where
  extremity0 : Vector3d ℚ
  extremity1 : Vector3d ℚ
  normal : Vector3d ℚ
  origin : Vector3d ℚ
  dislocations : List DislocationQ
  sources : List DislocationSourceQ
deriving DecidableEq, Repr

/-- The slip-plane input file after tokenisation: two extremity lines, a
normal line, a position line, then the dislocation record lines and the
source record lines announced by their counts (spec section 6). -/
structure SlipPlaneFileQ where
  extremity0Line : List ℚ
  extremity1Line : List ℚ
  normalLine : List ℚ
  positionLine : List ℚ
  dislocationLines : List (List ℚ)
  sourceLines : List (List ℚ)
deriving DecidableEq, Repr

/-- readSlipPlane of simulateSingleSlipPlane.cpp lines 61-112. The
argument none stands for a file that could not be opened: the function
returns false and the state is untouched. For an opened file the
function stores the extremities, normal and position, inserts every
dislocation and every dislocation-source record it parses, and then
falls off the end of the function body without executing any return
statement; the returned flag is therefore modelled as Option Bool with
none on that path. Vector lines that fail to parse leave the
corresponding field at its previous value, matching a failed stream
extraction. -/
def readSlipPlane : Option SlipPlaneFileQ → SlipPlaneQ → Option Bool × SlipPlaneQ
  | none, s => (some false, s)
  | some f, s =>
      (none,
       { extremity0 := (readVectorFromLine f.extremity0Line).getD s.extremity0,
         extremity1 := (readVectorFromLine f.extremity1Line).getD s.extremity1,
         normal := (readVectorFromLine f.normalLine).getD s.normal,
         origin := (readVectorFromLine f.positionLine).getD s.origin,
         dislocations :=
           s.dislocations ++ f.dislocationLines.filterMap readDislocationFromLine,
         sources :=
           s.sources ++ f.sourceLines.filterMap readDislocationSourceFromLine })

/-- ignoreLine of tools.cpp lines 173-180: a line is ignored when it is
empty, or when its character at index 0 equals the comment character.
Strings are embedded as lists of characters. -/
def ignoreLine (line : List Char) (comment : Char) : Bool :=
  match line with
  | [] => true
  | c :: _ => c == comment

/-- The skip predicate in the words of the spec (section 6): blank lines
and lines whose first non-whitespace character is the comment character
are skipped. Stated as a second definition to compare with ignoreLine. -/
def specSkipLine (line : List Char) (comment : Char) : Bool :=
  match line.dropWhile Char.isWhitespace with
  | [] => true
  | c :: _ => c == comment

/-- The inner loop of eliminateDuplicatesFromVector (tools.cpp lines
141-156): for each later element vj the flag found is assigned to
whether vi - vj has zero magnitude, or-ed when negatives is set with
whether vi + vj has zero magnitude, and the loop breaks as soon as found
is true. When the suffix is empty the loop body never runs and found
keeps its incoming value, exactly as the C++ variable does. -/
def duplicateScan (vi : Vector3d ℚ) (negatives : Bool) :
    List (Vector3d ℚ) → Bool → Bool
  | [], found => found
  | vj :: rest, _ =>
      let f := decide ((vi - vj).magnitudeSq = 0) ||
        (negatives && decide ((vi + vj).magnitudeSq = 0))
      if f then f else duplicateScan vi negatives rest f

/-- The outer loop of eliminateDuplicatesFromVector (tools.cpp lines
139-161): vi is appended to the output exactly when found is false after
scanning the suffix; the flag value is carried from one outer iteration
to the next because the C++ declares found once outside both loops. -/
def eliminateDuplicatesAux (negatives : Bool) :
    List (Vector3d ℚ) → Bool → List (Vector3d ℚ)
  | [], _ => []
  | vi :: rest, found =>
      let found2 := duplicateScan vi negatives rest found
      if found2 then eliminateDuplicatesAux negatives rest found2
      else vi :: eliminateDuplicatesAux negatives rest found2

/-- eliminateDuplicatesFromVector of tools.cpp lines 129-164. The C++
local bool found is declared without an initializer, so its value before
the first assignment is indeterminate; that initial value is made an
explicit argument found0 of the embedding. -/
def eliminateDuplicatesFromVector (v : List (Vector3d ℚ)) (negatives : Bool)
    (found0 : Bool) : List (Vector3d ℚ) :=
  eliminateDuplicatesAux negatives v found0

/-- An empty slip-plane state, used as the pre-call state in concrete
evaluations of readSlipPlane. -/
def emptySlipPlaneQ : SlipPlaneQ :=
  { extremity0 := Vector3d.zero, extremity1 := Vector3d.zero,
    normal := Vector3d.zero, origin := Vector3d.zero,
    dislocations := [], sources := [] }

/-- C8 counterexample: the line consisting of a space followed by the
comment character has the comment character as its first non-whitespace
character, so the spec predicate skips it, but ignoreLine examines only
the character at index 0 and does not skip it. -/
theorem c8_counterexample :
    specSkipLine [' ', '#'] '#' = true ∧ ignoreLine [' ', '#'] '#' = false := by
  decide

/-- C8 (amended): an input line is skipped by ignoreLine exactly when it
is empty or its first character, whitespace included, is the comment
character. -/
theorem c8_ignoreLine_first_character (line : List Char) (comment : Char) :
    ignoreLine line comment = (line.isEmpty || (line.head? == some comment)) := by
  cases line <;> rfl

/-- C10: on a one-element input the inner loop of
eliminateDuplicatesFromVector never runs, so the push-back decision
reads the uninitialized flag found; when that indeterminate value is
true the sole element, which has no duplicate at all, is dropped from
the output, while the value false keeps it. The result therefore
depends on an uninitialized read, contradicting the documented contract
of returning the input without its duplicates. -/
theorem c10_uninitialized_found_drops_singleton :
    eliminateDuplicatesFromVector [(⟨1, 0, 0⟩ : Vector3d ℚ)] false true = [] ∧
    eliminateDuplicatesFromVector [(⟨1, 0, 0⟩ : Vector3d ℚ)] false false =
      [(⟨1, 0, 0⟩ : Vector3d ℚ)] := by
  decide

/-- C5: the embedded parsers read the record fields in the claimed
order; a well-formed dislocation line yields position, Burgers vector,
line vector, Burgers magnitude and mobility, and a well-formed source
line additionally yields tau and the iteration count. The shipped
bodies themselves are ill-formed (undeclared identifier mon for the
parsed mobility, stringstresm, in nIter, and a six-argument Dislocation
construction where the declared return type is DislocationSource), so
this evaluates the evident intent at a concrete record. -/
theorem c5_parsers_read_fields_in_order :
    readDislocationFromLine [1, 2, 3, 4, 5, 6, 7, 8, 9, 10, 1] =
      some { pos := ⟨1, 2, 3⟩, bvec := ⟨4, 5, 6⟩, lvec := ⟨7, 8, 9⟩,
             bmag := 10, mobile := true } ∧
    readDislocationSourceFromLine [1, 2, 3, 4, 5, 6, 7, 8, 9, 10, 11, 12] =
      some { pos := ⟨1, 2, 3⟩, bvec := ⟨4, 5, 6⟩, lvec := ⟨7, 8, 9⟩,
             bmag := 10, tau := 11, nIter := 12 } := by
  decide

/-- C6: readSlipPlane returns false and leaves the slip-plane state
untouched when the file cannot be opened; on the success path it
stores the records but reaches the end of the function body without
executing any return statement, so no flag at all is returned (modelled
as none), not the value true the claim and the function documentation
require. -/
theorem c6_readSlipPlane_return_paths :
    (∀ s : SlipPlaneQ, readSlipPlane none s = (some false, s)) ∧
    (∀ (f : SlipPlaneFileQ) (s : SlipPlaneQ), (readSlipPlane (some f) s).1 = none) :=
  ⟨fun _ => rfl, fun _ _ => rfl⟩

/-- C7 counterexample: a source record with tau_c = 0 and N_c = 0 is
parsed without complaint and inserted into the slip plane by
readSlipPlane; no rejection of any kind occurs. -/
theorem c7_counterexample :
    readDislocationSourceFromLine [0, 0, 0, 1, 0, 0, 0, 0, 1, 1, 0, 0] =
      some { pos := ⟨0, 0, 0⟩, bvec := ⟨1, 0, 0⟩, lvec := ⟨0, 0, 1⟩,
             bmag := 1, tau := 0, nIter := 0 } ∧
    (readSlipPlane
        (some { extremity0Line := [0, 0, 0], extremity1Line := [1, 0, 0],
                normalLine := [0, 1, 0], positionLine := [0, 0, 0],
                dislocationLines := [],
                sourceLines := [[0, 0, 0, 1, 0, 0, 0, 0, 1, 1, 0, 0]] })
        emptySlipPlaneQ).2.sources =
      [{ pos := ⟨0, 0, 0⟩, bvec := ⟨1, 0, 0⟩, lvec := ⟨0, 0, 1⟩,
         bmag := 1, tau := 0, nIter := 0 }] := by
  decide

/-- C7 (amended): loading performs no validation of source records; a
record whose parsed iteration count or critical stress is non-positive
is inserted into the slip plane exactly like any other parsed record,
and no error is surfaced. -/
theorem c7_sources_not_validated (f : SlipPlaneFileQ) (s : SlipPlaneQ)
    (ts : List ℚ) (src : DislocationSourceQ)
    (hparse : readDislocationSourceFromLine ts = some src)
    (_hbad : src.nIter ≤ 0 ∨ src.tau ≤ 0)
    (hmem : ts ∈ f.sourceLines) :
    src ∈ (readSlipPlane (some f) s).2.sources := by
  simp only [readSlipPlane]
  exact List.mem_append_right _ (List.mem_filterMap.mpr ⟨ts, hmem, hparse⟩)

/-- C7 witness: the amended statement applied to the concrete
misconfigured record with tau_c = 0 and N_c = 0. -/
theorem c7_witness :
    { pos := ⟨0, 0, 0⟩, bvec := ⟨1, 0, 0⟩, lvec := ⟨0, 0, 1⟩,
      bmag := 2, tau := 0, nIter := 0 : DislocationSourceQ } ∈
      (readSlipPlane
          (some { extremity0Line := [0, 0, 0], extremity1Line := [1, 0, 0],
                  normalLine := [0, 1, 0], positionLine := [0, 0, 0],
                  dislocationLines := [],
                  sourceLines := [[0, 0, 0, 1, 0, 0, 0, 0, 1, 2, 0, 0]] })
          emptySlipPlaneQ).2.sources := by
  refine c7_sources_not_validated _ _ [0, 0, 0, 1, 0, 0, 0, 0, 1, 2, 0, 0] _
    (by decide) (Or.inl (by decide)) (by decide)

/-- C1: in the local frame the stress field of the edge dislocation has
the claimed components. With K = mu |b| / (2 pi (1 - nu)) and
r2 = x^2 + y^2: away from the core, sigma_xx =
-K y (3 x^2 + y^2) / r2^2, sigma_yy = K y (x^2 - y^2) / r2^2, sigma_xy =
K x (x^2 - y^2) / r2^2, sigma_zz = nu (sigma_xx + sigma_yy), and the xz
and yz components vanish; at r = 0 the zero tensor is returned. -/
theorem c1_stressFieldLocal_components (d : Dislocation ℝ) (p : Vector3d ℝ)
    (mu nu : ℝ) :
    (p.x ^ 2 + p.y ^ 2 ≠ 0 →
      (d.stressFieldLocal p mu nu).xx =
        -(mu * d.bmag / (2 * Real.pi * (1 - nu))) * p.y *
          (3 * p.x ^ 2 + p.y ^ 2) / (p.x ^ 2 + p.y ^ 2) ^ 2 ∧
      (d.stressFieldLocal p mu nu).yy =
        mu * d.bmag / (2 * Real.pi * (1 - nu)) * p.y *
          (p.x ^ 2 - p.y ^ 2) / (p.x ^ 2 + p.y ^ 2) ^ 2 ∧
      (d.stressFieldLocal p mu nu).xy =
        mu * d.bmag / (2 * Real.pi * (1 - nu)) * p.x *
          (p.x ^ 2 - p.y ^ 2) / (p.x ^ 2 + p.y ^ 2) ^ 2 ∧
      (d.stressFieldLocal p mu nu).zz =
        nu * ((d.stressFieldLocal p mu nu).xx + (d.stressFieldLocal p mu nu).yy) ∧
      (d.stressFieldLocal p mu nu).xz = 0 ∧
      (d.stressFieldLocal p mu nu).yz = 0) ∧
    (p.x ^ 2 + p.y ^ 2 = 0 → d.stressFieldLocal p mu nu = Stress.zero) := by
  constructor <;> intro h <;>
    simp [Dislocation.stressFieldLocal, h]

/-- A concrete dislocation over the reals used by the witnesses: unit
Burgers magnitude, Burgers vector along x, line vector along z, the
identity as rotation matrix, empty histories. -/
noncomputable def dWitness : Dislocation ℝ :=
  { pos := Vector3d.zero, bvec := ⟨1, 0, 0⟩, lvec := ⟨0, 0, 1⟩,
    mobile := true, bmag := 1,
    rotationMatrix := ⟨1, 0, 0, 0, 1, 0, 0, 0, 1⟩,
    totalStresses := [], forces := [], velocities := [] }

/-- C1 witness: the component formula at the concrete field point
(1, 0, 0) away from the core, and the zero tensor on the core at
(0, 0, 5), both obtained from the C1 theorem. -/
theorem c1_witness :
    (dWitness.stressFieldLocal ⟨1, 0, 0⟩ 1 0).xx =
      -(1 * dWitness.bmag / (2 * Real.pi * (1 - 0))) *
        (Vector3d.mk (α := ℝ) 1 0 0).y *
        (3 * (Vector3d.mk (α := ℝ) 1 0 0).x ^ 2 + (Vector3d.mk (α := ℝ) 1 0 0).y ^ 2) /
        ((Vector3d.mk (α := ℝ) 1 0 0).x ^ 2 + (Vector3d.mk (α := ℝ) 1 0 0).y ^ 2) ^ 2 ∧
    dWitness.stressFieldLocal ⟨0, 0, 5⟩ 1 0 = Stress.zero := by
  constructor
  · exact ((c1_stressFieldLocal_components dWitness ⟨1, 0, 0⟩ 1 0).1
      (by norm_num)).1
  · exact (c1_stressFieldLocal_components dWitness ⟨0, 0, 5⟩ 1 0).2 (by norm_num)

/-- C2: when the absolute value of the xy component of sigma expressed
in the dislocation local frame is strictly below tau_crss the
Peach-Koehler force is the zero vector; otherwise it is
(sigma . b) x xi with the stored Burgers and line vectors. -/
theorem c2_forcePeachKoehler_threshold (d : Dislocation ℝ) (sigma : Stress ℝ)
    (tau_crss : ℝ) :
    (|(Stress.rotateToLocal d.rotationMatrix sigma).xy| < tau_crss →
      d.forcePeachKoehler sigma tau_crss = Vector3d.zero) ∧
    (tau_crss ≤ |(Stress.rotateToLocal d.rotationMatrix sigma).xy| →
      d.forcePeachKoehler sigma tau_crss =
        Vector3d.cross (sigma.toMatrix.mulVec d.bvec) d.lvec) := by
  constructor <;> intro h
  · simp [Dislocation.forcePeachKoehler, h]
  · simp [Dislocation.forcePeachKoehler, not_lt.mpr h]

/-- C2 witness: with the identity rotation matrix and the zero stress
tensor the resolved shear is 0, so the force vanishes below the
threshold 1 and equals the Peach-Koehler cross product at threshold 0,
both obtained from the C2 theorem. -/
theorem c2_witness :
    dWitness.forcePeachKoehler Stress.zero 1 = Vector3d.zero ∧
    dWitness.forcePeachKoehler Stress.zero 0 =
      Vector3d.cross ((Stress.zero (α := ℝ)).toMatrix.mulVec dWitness.bvec)
        dWitness.lvec := by
  constructor
  · refine (c2_forcePeachKoehler_threshold dWitness Stress.zero 1).1 ?_
    simp [Stress.rotateToLocal, Stress.ofMatrix, Stress.toMatrix, Stress.zero,
      Matrix33.mul, Matrix33.transpose, dWitness]
  · refine (c2_forcePeachKoehler_threshold dWitness Stress.zero 0).2 ?_
    simp [Stress.rotateToLocal, Stress.ofMatrix, Stress.toMatrix, Stress.zero,
      Matrix33.mul, Matrix33.transpose, dWitness]

/-- C3: the pair constraint of the ideal time increment. A non-positive
closing speed v1 - v2 imposes no constraint; a positive one allows
max 0 ((x2 - x1 - minDistance) / (v1 - v2)); and for two defects
closing at unit speed separated by three times minDistance the
increment is twice minDistance. -/
theorem c3_idealTimeIncrement_pair (minDistance x1 x2 v1 v2 : ℚ) :
    (v1 - v2 ≤ 0 → idealTimeIncrement minDistance x1 x2 v1 v2 = none) ∧
    (0 < v1 - v2 →
      idealTimeIncrement minDistance x1 x2 v1 v2 =
        some (max 0 ((x2 - x1 - minDistance) / (v1 - v2)))) ∧
    (0 ≤ minDistance → x2 = x1 + 3 * minDistance → v1 - v2 = 1 →
      idealTimeIncrement minDistance x1 x2 v1 v2 = some (2 * minDistance)) := by
  refine ⟨fun h => ?_, fun h => ?_, fun hm hx hv => ?_⟩
  · simp [idealTimeIncrement, h]
  · simp [idealTimeIncrement, not_le.mpr h]
  · have hgap : x2 - x1 - minDistance = 2 * minDistance := by rw [hx]; ring
    simp [idealTimeIncrement, hv, hgap, max_eq_right (by linarith : (0:ℚ) ≤ 2 * minDistance)]

/-- C3 witness: minDistance 1, positions 0 and 3, velocities 1 and 0
give the increment 2; swapping the velocities gives a non-closing pair
and no constraint, both obtained from the C3 theorem. -/
theorem c3_witness :
    idealTimeIncrement 1 0 3 1 0 = some (2 * 1) ∧
    idealTimeIncrement 1 0 3 0 1 = none := by
  constructor
  · exact (c3_idealTimeIncrement_pair 1 0 3 1 0).2.2 (by norm_num) (by norm_num)
      (by norm_num)
  · exact (c3_idealTimeIncrement_pair 1 0 3 0 1).1 (by norm_num)

/-- C4: the global-frame stress field at a field point equals the
local-frame stress field, evaluated at the field point translated by the
dislocation position and rotated into the local frame, rotated back up
through the dislocation rotation matrix. -/
theorem c4_stressField_is_rotated_local (d : Dislocation ℝ) (p : Vector3d ℝ)
    (mu nu : ℝ) :
    d.stressField p mu nu =
      Stress.rotateToGlobal d.rotationMatrix
        (d.stressFieldLocal (d.rotationMatrix.mulVec (p - d.pos)) mu nu) := rfl

/-- C9: each per-iteration history getter returns the zero tensor or
zero vector for an index that is negative or at least the length of its
history vector, and the recorded entry for an index inside the range. -/
theorem c9_history_getters {α : Type} [Zero α] (d : Dislocation α) (i : Int) :
    ((i < 0 ∨ (d.totalStresses.length : Int) ≤ i) →
      d.getTotalStressAtIteration i = Stress.zero) ∧
    ((0 ≤ i ∧ i < (d.totalStresses.length : Int)) →
      d.getTotalStressAtIteration i = d.totalStresses.getD i.toNat Stress.zero) ∧
    ((i < 0 ∨ (d.forces.length : Int) ≤ i) →
      d.getTotalForceAtIteration i = Vector3d.zero) ∧
    ((0 ≤ i ∧ i < (d.forces.length : Int)) →
      d.getTotalForceAtIteration i = d.forces.getD i.toNat Vector3d.zero) ∧
    ((i < 0 ∨ (d.velocities.length : Int) ≤ i) →
      d.getVelocityAtIteration i = Vector3d.zero) ∧
    ((0 ≤ i ∧ i < (d.velocities.length : Int)) →
      d.getVelocityAtIteration i = d.velocities.getD i.toNat Vector3d.zero) := by
  refine ⟨fun h => ?_, fun h => ?_, fun h => ?_, fun h => ?_, fun h => ?_, fun h => ?_⟩ <;>
    · first
      | (rw [Dislocation.getTotalStressAtIteration, if_neg (by omega)])
      | (rw [Dislocation.getTotalStressAtIteration, if_pos (by omega)])
      | (rw [Dislocation.getTotalForceAtIteration, if_neg (by omega)])
      | (rw [Dislocation.getTotalForceAtIteration, if_pos (by omega)])
      | (rw [Dislocation.getVelocityAtIteration, if_neg (by omega)])
      | (rw [Dislocation.getVelocityAtIteration, if_pos (by omega)])

/-- A concrete dislocation over the rationals with one recorded entry in
each history, used by the C9 witness. -/
def dHistory : Dislocation ℚ :=
  { pos := Vector3d.zero, bvec := ⟨1, 0, 0⟩, lvec := ⟨0, 0, 1⟩,
    mobile := true, bmag := 1,
    rotationMatrix := ⟨1, 0, 0, 0, 1, 0, 0, 0, 1⟩,
    totalStresses := [⟨1, 2, 3, 4, 5, 6⟩],
    forces := [⟨7, 8, 9⟩], velocities := [⟨10, 11, 12⟩] }

/-- C9 witness: the getters of the concrete dislocation return zero at
the invalid index -1 and the recorded entries at the valid index 0,
obtained from the C9 theorem. -/
theorem c9_witness :
    dHistory.getTotalStressAtIteration (-1) = Stress.zero ∧
    dHistory.getTotalStressAtIteration 0 =
      dHistory.totalStresses.getD (Int.toNat 0) Stress.zero ∧
    dHistory.getTotalForceAtIteration (-1) = Vector3d.zero ∧
    dHistory.getTotalForceAtIteration 0 =
      dHistory.forces.getD (Int.toNat 0) Vector3d.zero ∧
    dHistory.getVelocityAtIteration (-1) = Vector3d.zero ∧
    dHistory.getVelocityAtIteration 0 =
      dHistory.velocities.getD (Int.toNat 0) Vector3d.zero := by
  refine ⟨(c9_history_getters dHistory (-1)).1 (Or.inl (by decide)),
    (c9_history_getters dHistory 0).2.1 ⟨by decide, by decide⟩,
    (c9_history_getters dHistory (-1)).2.2.1 (Or.inl (by decide)),
    (c9_history_getters dHistory 0).2.2.2.1 ⟨by decide, by decide⟩,
    (c9_history_getters dHistory (-1)).2.2.2.2.1 (Or.inl (by decide)),
    (c9_history_getters dHistory 0).2.2.2.2.2 ⟨by decide, by decide⟩⟩
